import Mathlib

/-!
# Verification of the Robot-Fleet-Dashboard polling subsystem

A shallow embedding of the adaptive dual-rate polling and failure-recovery
subsystem of the Robot-Fleet-Dashboard client:

* `src/static/js/motorDataWorker.js` — the Background Poller (worker script),
* `MotorDataService` and the two driver functions `setupMotorDataUpdateRate`
  and `setupMotorDataWorker` (service module / main driver),
* the component-level copies of the Threshold Evaluator functions in
  `MotorDataComponent.js` and `MotorDetailComponent`.

JavaScript numbers are modelled as exact rationals (`ℚ`); `NaN`, `Infinity`
and floating-point rounding are outside the model.  JavaScript objects that
the embedded code only stores and moves around wholesale (per-robot motor
records, status records) are modelled as opaque `JSVal` leaves inside
association lists, since none of the embedded operations inspect them.
-/

set_option maxRecDepth 4000

/-- A JavaScript primitive value, as passed to the Threshold Evaluator
functions and carried in command messages.  `num` holds an exact rational
standing for a finite JS number. -/
inductive JSVal where
  | undef
  | null
  | bool (b : Bool)
  | num (q : ℚ)
  | str (s : String)
deriving DecidableEq, Repr

namespace JSVal

/-- JavaScript truthiness of a primitive value (`undefined`, `null`, `false`,
`0` and `""` are falsy, every other primitive is truthy). -/
def truthy : JSVal → Bool
  | .undef => false
  | .null => false
  | .bool b => b
  | .num q => decide (q ≠ 0)
  | .str s => decide (s ≠ "")

/-- `typeof v === 'number'`. -/
def isNumber : JSVal → Bool
  | .num _ => true
  | _ => false

end JSVal

/-! ## JavaScript decimal rendering

`Number.prototype.toFixed` and `Number.prototype.toExponential`, restricted
to exact rationals.  Both follow the ECMAScript algorithm: pick the integer
`n` whose scaled value is closest to the input, breaking ties towards the
larger `n`. -/

/-- Round to the nearest integer, ties towards the larger integer
(the ECMAScript tie-break for `toFixed`/`toExponential`). -/
def jsRound (x : ℚ) : ℤ := ⌊x + 1 / 2⌋

/-- Decimal digit string of `n` left-padded with zeros to at least `len`
characters. -/
def padDigits (n : ℕ) (len : ℕ) : String :=
  let s := toString n
  String.mk (List.replicate (len - s.length) '0') ++ s

/-- `x.toFixed(f)` for a non-negative rational `x`. -/
def jsToFixedNonneg (x : ℚ) (f : ℕ) : String :=
  let n : ℕ := (jsRound (x * 10 ^ f)).toNat
  if f = 0 then toString n
  else
    let s := padDigits n (f + 1)
    let len := s.length
    s.take (len - f) ++ "." ++ s.drop (len - f)

/-- `x.toFixed(f)`: sign, then the non-negative rendering of `|x|`. -/
def jsToFixed (x : ℚ) (f : ℕ) : String :=
  if x < 0 then "-" ++ jsToFixedNonneg (-x) f else jsToFixedNonneg x f

/-- `x.toExponential(f)` for a rational `x` with `|x| ≥ 1` (the only region
the embedded code reaches: it calls this exclusively for `|x| > 1000`).
Chooses the exponent `e` with `10^e ≤ |x| < 10^(e+1)`, rounds the mantissa
to `f+1` significant digits (ties up), and bumps the exponent when rounding
overflows to the next power of ten. -/
def jsToExponentialNonneg (x : ℚ) (f : ℕ) : String :=
  let e : ℕ := (Nat.toDigits 10 ⌊x⌋.toNat).length - 1
  let n : ℕ := (jsRound (x * 10 ^ f / 10 ^ e)).toNat
  let (e, n) : ℕ × ℕ := if n = 10 ^ (f + 1) then (e + 1, 10 ^ f) else (e, n)
  let s := padDigits n (f + 1)
  let mantissa := if f = 0 then s else s.take 1 ++ "." ++ s.drop 1
  mantissa ++ "e+" ++ toString e

/-- `x.toExponential(f)`: sign, then the non-negative rendering of `|x|`. -/
def jsToExponential (x : ℚ) (f : ℕ) : String :=
  if x < 0 then "-" ++ jsToExponentialNonneg (-x) f else jsToExponentialNonneg x f

/-! ## Threshold Evaluator

Three separate copies of the formatter / abnormality classifier live in the
source; each is embedded under the name of its host module.
`isMotorValueAbnormal` takes its value as `Option ℚ`: `none` stands for
`undefined`/`null` (both handled by the same early return in the source) and
`some q` for a finite number — the only inputs the classifier is specified
on. -/

namespace MotorDataService

/-- `MotorDataService.formatMotorValue` (service module): `N/A` for
`undefined`/`null`, `Invalid` for non-numbers, scientific notation with two
fractional digits for magnitudes above 1000, otherwise fixed-point with
three fractional digits. -/
def formatMotorValue (v : JSVal) : String :=
  match v with
  | .undef => "N/A"
  | .null => "N/A"
  | .num q => if |q| > 1000 then jsToExponential q 2 else jsToFixed q 3
  | _ => "Invalid"

/-- `MotorDataService.isMotorValueAbnormal`: current above 5 A, absolute
velocity above 1000 RPM, absolute position above 100000; `false` for
`undefined`/`null` and for unknown kinds. -/
def isMotorValueAbnormal (value : Option ℚ) (type : String) : Bool :=
  match value with
  | none => false
  | some q =>
    if type = "current" then decide (q > 5)
    else if type = "velocity" then decide (|q| > 1000)
    else if type = "position" then decide (|q| > 100000)
    else false

/-- `MotorDataService.isZeroValue`: absent or of magnitude below `0.0001`. -/
def isZeroValue (value : Option ℚ) : Bool :=
  match value with
  | none => true
  | some q => decide (|q| < 0.0001)

end MotorDataService

namespace MotorDataComponent

/-- `isMotorValueAbnormal` in `MotorDataComponent.js` — identical cases to
the service module's copy. -/
def isMotorValueAbnormal (value : Option ℚ) (type : String) : Bool :=
  match value with
  | none => false
  | some q =>
    if type = "current" then decide (q > 5)
    else if type = "velocity" then decide (|q| > 1000)
    else if type = "position" then decide (|q| > 100000)
    else false

end MotorDataComponent

namespace MotorDetailComponent

/-- `MotorDetailComponent.formatMotorValue`: same sentinels, but every
number is rendered with `toFixed(2)` — there is no exponential branch in
this copy. -/
def formatMotorValue (v : JSVal) : String :=
  match v with
  | .undef => "N/A"
  | .null => "N/A"
  | .num q => jsToFixed q 2
  | _ => "Invalid"

/-- `MotorDetailComponent.isMotorValueAbnormal`: this copy has cases for
`current` and `velocity` only; every other kind — including `position` —
falls through to the `default: return false` branch. -/
def isMotorValueAbnormal (value : Option ℚ) (type : String) : Bool :=
  match value with
  | none => false
  | some q =>
    if type = "current" then decide (q > 5)
    else if type = "velocity" then decide (|q| > 1000)
    else false

end MotorDetailComponent

/-! ## Payloads and fetch results

`/api/robot-status` answers with a JSON object
`{ping_status, robot_status, cleaning_device_status, motor_data}` where any
field may be absent.  The per-robot record stored under each key is opaque
to every embedded operation (the merge paths store the maps wholesale), so
map entries are `JSVal` leaves; `ping_status` entries are booleans. -/

/-- `motor_data`: robotId → motor record (record opaque to the merges). -/
abbrev MotorMap := List (String × JSVal)

/-- `ping_status`: robotId → connectivity flag. -/
abbrev PingMap := List (String × Bool)

/-- `robot_status`: robotId → status record (opaque to the merges). -/
abbrev StatusMap := List (String × JSVal)

/-- `cleaning_device_status`: robotId → device record (opaque). -/
abbrev DeviceMap := List (String × JSVal)

/-- A decoded `/api/robot-status` response body; `none` marks an absent
(or `null`, hence falsy) top-level key. -/
structure Payload where
  ping_status : Option PingMap := none
  robot_status : Option StatusMap := none
  cleaning_device_status : Option DeviceMap := none
  motor_data : Option MotorMap := none
deriving DecidableEq, Repr

/-- How one `fetch` of the endpoint settles, as observed by a caller. -/
inductive FetchResult where
  | networkError (msg : String)
  | httpError (status : ℕ)
  | decodeError (msg : String)
  | ok (data : Payload)
deriving DecidableEq, Repr

/-! ## Background Poller (`src/static/js/motorDataWorker.js`)

Module-level worker state.  `POLLING_INTERVAL` is declared `const` in the
source; the embedding keeps its value as a state field and reflects the
`const`-ness in the `setInterval` command handler, where the source assigns
to the binding (a `TypeError` in JavaScript). -/

/-- A JavaScript runtime exception escaping a handler. -/
inductive JsError where
  | typeError (msg : String)
  | referenceError (msg : String)
deriving DecidableEq, Repr

/-- The worker's module-level mutable bindings.  `pollTimer` keeps the last
`setTimeout` id; the source never resets it to `null`, only clears it. -/
structure WorkerState where
  pollingInterval : ℕ
  isRunning : Bool
  pollTimer : Option ℕ
  consecutiveErrors : ℕ
deriving DecidableEq, Repr

def MAX_CONSECUTIVE_ERRORS : ℕ := 3

/-- Bindings right after the worker script's top-level declarations run:
`POLLING_INTERVAL = 500`, `isRunning = true`, `pollTimer = null`,
`consecutiveErrors = 0`. -/
def initialWorkerState : WorkerState :=
  { pollingInterval := 500, isRunning := true, pollTimer := none,
    consecutiveErrors := 0 }

/-- Externally visible actions a command handler performs. `beginPoll`
stands for an invocation of `pollMotorData()`, which unconditionally issues
one fetch. -/
inductive WorkerEffect where
  | clearTimer (id : ℕ)
  | beginPoll
  | warnUnknown
deriving DecidableEq, Repr

/-- An inbound `{command: ...}` message. -/
inductive Command where
  | start
  | stop
  | poll
  | setIntervalCmd (interval : JSVal)
  | unknown (name : String)
deriving DecidableEq, Repr

/-- An outbound `postMessage` from the worker. -/
inductive OutMsg where
  | motorData (motorData : MotorMap) (pingStatus : PingMap) (timestamp : ℕ)
  | errorMsg (error : String)
deriving DecidableEq, Repr

/-- The worker's `try` block, up to the `postMessage` on success: a network
failure, a non-2xx status (`Server responded with status: N`), a JSON
decode failure, and a payload with a missing/falsy `motor_data` key all
throw into the `catch`; otherwise the posted data is
`{motorData: data.motor_data, pingStatus: data.ping_status || {}}`. -/
def workerFetchOutcome : FetchResult → Except String (MotorMap × PingMap)
  | .networkError m => .error m
  | .httpError s => .error ("Server responded with status: " ++ toString s)
  | .decodeError m => .error m
  | .ok d =>
    match d.motor_data with
    | none => .error "Motor data missing in response"
    | some m => .ok (m, d.ping_status.getD [])

/-- The body of `pollMotorData` from the point its fetch settles: on
success reset `consecutiveErrors` and post a `motorData` message; on any
caught error increment `consecutiveErrors` and post an `error` message.
Then, only if `isRunning`, schedule the next cycle — at twice the nominal
interval when `consecutiveErrors > MAX_CONSECUTIVE_ERRORS`, else at the
nominal interval — recording the fresh timer id `timerId`.  Returns the new
state, the posted messages, and the scheduled `(timerId, delay)` if any. -/
def pollMotorData (st : WorkerState) (res : FetchResult) (timestamp : ℕ)
    (timerId : ℕ) : WorkerState × List OutMsg × Option (ℕ × ℕ) :=
  let (errors, msgs) :=
    match workerFetchOutcome res with
    | .ok (m, p) => (0, [OutMsg.motorData m p timestamp])
    | .error e => (st.consecutiveErrors + 1, [OutMsg.errorMsg e])
  if st.isRunning then
    let nextInterval :=
      if errors > MAX_CONSECUTIVE_ERRORS then st.pollingInterval * 2
      else st.pollingInterval
    ({ st with consecutiveErrors := errors, pollTimer := some timerId },
      msgs, some (timerId, nextInterval))
  else
    ({ st with consecutiveErrors := errors }, msgs, none)

/-- `if (pollTimer) clearTimeout(pollTimer)` — the guard-and-clear both the
`stop` and `poll` branches start with. -/
def clearPendingEffects (st : WorkerState) : List WorkerEffect :=
  match st.pollTimer with
  | some id => [WorkerEffect.clearTimer id]
  | none => []

/-- The worker's `message` listener.  The `setInterval` branch assigns
`POLLING_INTERVAL = newInterval` after its truthy-number guard; since
`POLLING_INTERVAL` is a `const` binding, that assignment raises a
`TypeError` before any state change, so the handler result is an error and
the interval is never replaced. -/
def handleMessage (st : WorkerState) (cmd : Command) :
    Except JsError (WorkerState × List WorkerEffect) :=
  match cmd with
  | .start => .ok ({ st with isRunning := true }, [.beginPoll])
  | .stop => .ok ({ st with isRunning := false }, clearPendingEffects st)
  | .poll => .ok (st, clearPendingEffects st ++ [.beginPoll])
  | .setIntervalCmd v =>
    if v.truthy && v.isNumber then
      .error (.typeError "Assignment to constant variable.")
    else
      .ok (st, [])
  | .unknown _ => .ok (st, [.warnUnknown])

/-- `startPolling()`: logs and immediately invokes `pollMotorData()`. -/
def startPolling : List WorkerEffect := [WorkerEffect.beginPoll]

/-- Evaluating the worker module: initialize the bindings, then call
`startPolling()` (line 11) — before the `message` listener is even
registered. -/
def workerInit : WorkerState × List WorkerEffect :=
  (initialWorkerState, startPolling)

/-- The effects produced by a handler run that does not throw. -/
def handlerEffects (st : WorkerState) (cmd : Command) : List WorkerEffect :=
  match handleMessage st cmd with
  | .ok (_, effs) => effs
  | .error _ => []

/-- A concrete state right after the worker has processed a `stop`:
`isRunning` is false and `pollTimer` still holds the (cleared) timer id. -/
def stoppedWorkerState : WorkerState :=
  { pollingInterval := 500, isRunning := false, pollTimer := some 1,
    consecutiveErrors := 0 }

/-! ## Orchestrator (`setupMotorDataWorker` / `setupMotorDataUpdateRate`)

The driver owns the reactive refs `robotData` (the snapshot), a
`motorUpdateKey` counter, and the `lastUpdate`/`error`/`loading` refs, and
merges every incoming result into them. -/

/-- The value of the `robotData` ref. -/
structure Snapshot where
  pingStatus : PingMap
  robotStatus : StatusMap
  cleaningDeviceStatus : DeviceMap
  motorData : MotorMap
deriving DecidableEq, Repr

/-- The driver's reactive refs taken together. -/
structure OrchState where
  snapshot : Snapshot
  motorUpdateKey : ℕ
  lastUpdatedAt : Option ℕ
  errorMsg : Option String
  loading : Bool
deriving DecidableEq, Repr

/-- The user-facing error string `fetchGeneralData` builds in its catch. -/
def generalFailureText : FetchResult → Option String
  | .networkError m => some ("Failed to load data: " ++ m)
  | .httpError s =>
    some ("Failed to load data: Server responded with status: " ++ toString s)
  | .decodeError m => some ("Failed to load data: " ++ m)
  | .ok _ => none

/-- `fetchGeneralData` result handling: on success spread the old snapshot
and replace only `pingStatus`/`robotStatus`/`cleaningDeviceStatus` (each
kept when the payload omits it), stamp `lastUpdate`, clear the error; on any
failure set the visible error string.  `loading` is cleared in `finally`
either way.  `motorData` and `motorUpdateKey` are never touched. -/
def fetchGeneralData (st : OrchState) (res : FetchResult) (now : ℕ) :
    OrchState :=
  match res with
  | .ok d =>
    { st with
      snapshot := { st.snapshot with
        pingStatus := d.ping_status.getD st.snapshot.pingStatus
        robotStatus := d.robot_status.getD st.snapshot.robotStatus
        cleaningDeviceStatus :=
          d.cleaning_device_status.getD st.snapshot.cleaningDeviceStatus }
      lastUpdatedAt := some now
      errorMsg := none
      loading := false }
  | res => { st with errorMsg := generalFailureText res, loading := false }

/-- JavaScript object spread `{...old, ...new}` on string-keyed maps:
existing keys keep their position but take the newer value, keys only in
`new` are appended. -/
def objMerge (old new : PingMap) : PingMap :=
  (old.map fun kv => (kv.1, (new.lookup kv.1).getD kv.2)) ++
    new.filter fun kv => (old.lookup kv.1).isNone

/-- The driver's listener for worker messages: a `motorData` message
replaces `snapshot.motorData`, spread-merges the carried `pingStatus` into
`snapshot.pingStatus` (the worker always sends one, and an object is always
truthy), and increments `motorUpdateKey`; an `error` message is only
logged. -/
def handleWorkerMessage (st : OrchState) (msg : OutMsg) : OrchState :=
  match msg with
  | .motorData m ping _ =>
    let st := { st with snapshot := { st.snapshot with motorData := m } }
    let st := { st with snapshot := { st.snapshot with
      pingStatus := objMerge st.snapshot.pingStatus ping } }
    { st with motorUpdateKey := st.motorUpdateKey + 1 }
  | .errorMsg _ => st

/-- `fetchMotorDataOnly` (the 20 Hz driver): non-2xx returns silently,
exceptions are only logged, and a payload carrying `motor_data` replaces
`snapshot.motorData` and increments `motorUpdateKey`; nothing else is
touched (no visible error state). -/
def fetchMotorDataOnly (st : OrchState) (res : FetchResult) : OrchState :=
  match res with
  | .ok d =>
    match d.motor_data with
    | some m =>
      { st with snapshot := { st.snapshot with motorData := m },
                motorUpdateKey := st.motorUpdateKey + 1 }
    | none => st
  | _ => st

/-- One tick of the fallback poller's interval callback — the same result
handling as `fetchMotorDataOnly`: silent on failure, and on a payload with
`motor_data` replace `snapshot.motorData` and increment `motorUpdateKey`. -/
def fallbackPollTick (st : OrchState) (res : FetchResult) : OrchState :=
  match res with
  | .ok d =>
    match d.motor_data with
    | some m =>
      { st with snapshot := { st.snapshot with motorData := m },
                motorUpdateKey := st.motorUpdateKey + 1 }
    | none => st
  | _ => st

/-- One merge-relevant occurrence in the driver's single-threaded context. -/
inductive OrchEvent where
  | generalResult (res : FetchResult) (now : ℕ)
  | motorOnlyResult (res : FetchResult)
  | workerMsg (msg : OutMsg)
  | fallbackResult (res : FetchResult)
deriving DecidableEq, Repr

/-- Dispatch one event to its handler. -/
def orchStep (st : OrchState) (e : OrchEvent) : OrchState :=
  match e with
  | .generalResult res now => fetchGeneralData st res now
  | .motorOnlyResult res => fetchMotorDataOnly st res
  | .workerMsg msg => handleWorkerMessage st msg
  | .fallbackResult res => fallbackPollTick st res

/-- An execution: a sequence of events folded over the driver state. -/
def orchRun (st : OrchState) (es : List OrchEvent) : OrchState :=
  es.foldl orchStep st

/-- Whether an event is a successfully merged motor update: a motor-only or
fallback fetch that succeeded with a `motor_data` key, or a worker
`motorData` message. -/
def isSuccessfulMotorMerge : OrchEvent → Bool
  | .motorOnlyResult (.ok d) => d.motor_data.isSome
  | .fallbackResult (.ok d) => d.motor_data.isSome
  | .workerMsg (.motorData ..) => true
  | _ => false

/-! ## The `setupMotorDataWorker` start sequence

`setupMotorDataWorker` runs: declarations (the `let cleanup` binding enters
its temporal dead zone), `fetchGeneralData()`, `setInterval(..., 5000)`,
`initWorker()`, and only then `let cleanup = () => {...}`.  When
`new Worker(...)` throws, `initWorker`'s catch calls
`setupFallbackPolling()`, which registers the 1000 ms fallback interval and
then reads `cleanup` — still uninitialized — raising a `ReferenceError`
that propagates out of the whole start sequence. -/

/-- Steps of the start sequence visible from outside. -/
inductive InitEvent where
  | generalFetchStarted
  | mainIntervalSet (delayMs : ℕ)
  | workerCreated
  | fallbackIntervalSet (delayMs : ℕ)
deriving DecidableEq, Repr

/-- A `let`/`const` binding slot: `tdz` before its initializer has run. -/
inductive Binding (α : Type) where
  | tdz
  | val (a : α)
deriving DecidableEq, Repr

/-- Reading a binding: in the temporal dead zone this raises
`ReferenceError: Cannot access '<name>' before initialization`. -/
def readBinding {α} (b : Binding α) (name : String) : Except JsError α :=
  match b with
  | .tdz =>
    .error (.referenceError
      ("Cannot access '" ++ name ++ "' before initialization"))
  | .val a => .ok a

/-- `setupFallbackPolling`: registers the fixed 1000 ms motor interval,
then rebinds `cleanup` to a wrapper — which first reads the current
`cleanup` value.  The closure bodies are irrelevant to the claims, so the
binding carries `Unit`. -/
def setupFallbackPolling (cleanupBinding : Binding Unit) :
    List InitEvent × Except JsError Unit :=
  ([.fallbackIntervalSet 1000], readBinding cleanupBinding "cleanup")

/-- `initWorker`: constructing the worker and attaching its listeners, with
the catch falling back to `setupFallbackPolling()`; an exception raised
inside the catch block propagates. -/
def initWorker (workerCtorThrows : Bool) (cleanupBinding : Binding Unit) :
    List InitEvent × Except JsError Unit :=
  if workerCtorThrows then setupFallbackPolling cleanupBinding
  else ([.workerCreated], .ok ())

/-- What running `setupMotorDataWorker` produced: the steps that executed,
the exception that escaped (if any), and whether the
`{cleanup, motorUpdateKey}` handle was returned to the caller. -/
structure InitOutcome where
  events : List InitEvent
  thrown : Option JsError
  handleReturned : Bool
deriving DecidableEq, Repr

/-- The `setupMotorDataWorker` body in execution order. -/
def setupMotorDataWorkerRun (workerCtorThrows : Bool) : InitOutcome :=
  let cleanupBinding : Binding Unit := .tdz
  let evs0 := [InitEvent.generalFetchStarted, InitEvent.mainIntervalSet 5000]
  match initWorker workerCtorThrows cleanupBinding with
  | (evs1, .error e) =>
    { events := evs0 ++ evs1, thrown := some e, handleReturned := false }
  | (evs1, .ok _) =>
    { events := evs0 ++ evs1, thrown := none, handleReturned := true }

/-! ## Concrete fixtures used by counterexamples and witnesses -/

/-- An empty driver state. -/
def orch0 : OrchState :=
  { snapshot := { pingStatus := [], robotStatus := [],
                  cleaningDeviceStatus := [], motorData := [] },
    motorUpdateKey := 0, lastUpdatedAt := none, errorMsg := none,
    loading := true }

/-- A worker result carrying both motor data and a ping entry. -/
def msgWithPing : OutMsg :=
  .motorData [("robo1", JSVal.str "blob")] [("robo1", true)] 42

/-- Whether the worker's try block reaches its success path on `res`. -/
def fetchSucceeds (res : FetchResult) : Bool :=
  match workerFetchOutcome res with
  | .ok _ => true
  | .error _ => false

/-- A network failure fixture. -/
def downResult : FetchResult := .networkError "down"

/-- A successful fetch fixture whose payload carries (empty) motor data. -/
def okResult : FetchResult := .ok { motor_data := some [] }

example : MotorDataService.formatMotorValue (.num 1500.4) = "1.50e+3" := by
  with_unfolding_all rfl
example : MotorDataService.formatMotorValue (.num 0.12345) = "0.123" := by
  with_unfolding_all rfl
example : MotorDataService.formatMotorValue (.num (-2)) = "-2.000" := by
  with_unfolding_all rfl
example : MotorDetailComponent.formatMotorValue (.num 1500.4) = "1500.40" := by
  with_unfolding_all rfl

/-! # Theorems -/

example : MotorDataService.formatMotorValue (.num (-2)) = "-2.000" := by
  with_unfolding_all rfl

/-- **C10**: evaluating the worker module immediately invokes
`startPolling()` — issuing the first motor fetch — before any `start`
command from the driver has been processed: the very initialization value
already carries the `beginPoll` effect, with `isRunning` true. -/
theorem workerInit_polls_before_any_command :
    workerInit.2 = [WorkerEffect.beginPoll] ∧
    workerInit.1.isRunning = true ∧
    workerInit.1 = initialWorkerState :=
  ⟨rfl, rfl, rfl⟩

/-- **C2**: a `setInterval` command with a truthy numeric interval reaches
the assignment to the `const POLLING_INTERVAL` binding and raises a
`TypeError` — the scheduling interval is never replaced — while non-numeric
(and falsy) interval values are ignored with the state unchanged. -/
theorem setInterval_const_assignment_throws :
    handleMessage initialWorkerState (.setIntervalCmd (.num 250))
      = .error (.typeError "Assignment to constant variable.") ∧
    handleMessage initialWorkerState (.setIntervalCmd (.str "soon"))
      = .ok (initialWorkerState, []) ∧
    handleMessage initialWorkerState (.setIntervalCmd .undef)
      = .ok (initialWorkerState, []) := by
  refine ⟨?_, ?_, ?_⟩ <;> with_unfolding_all rfl

/-- **C4**: when a poll cycle settles, a failure increments
`consecutiveErrors` by exactly 1 and a success resets it to 0; if the loop
is running, the next cycle is scheduled at twice the nominal interval
exactly when the updated count exceeds `MAX_CONSECUTIVE_ERRORS` (3), and at
the nominal interval otherwise. -/
theorem pollCycle_backoff_and_errorCount (st : WorkerState)
    (res : FetchResult) (ts id : ℕ) :
    (fetchSucceeds res = false →
      (pollMotorData st res ts id).1.consecutiveErrors
        = st.consecutiveErrors + 1) ∧
    (fetchSucceeds res = true →
      (pollMotorData st res ts id).1.consecutiveErrors = 0) ∧
    (st.isRunning = true →
      (pollMotorData st res ts id).1.consecutiveErrors
          > MAX_CONSECUTIVE_ERRORS →
      (pollMotorData st res ts id).2.2 = some (id, st.pollingInterval * 2)) ∧
    (st.isRunning = true →
      (pollMotorData st res ts id).1.consecutiveErrors
          ≤ MAX_CONSECUTIVE_ERRORS →
      (pollMotorData st res ts id).2.2 = some (id, st.pollingInterval)) := by
  obtain ⟨pi, ir, pt, ce⟩ := st
  cases h : workerFetchOutcome res with
  | ok v =>
    cases ir with
    | true =>
      refine ⟨?_, ?_, ?_, ?_⟩
      · intro hf; simp [fetchSucceeds, h] at hf
      · intro _; simp [pollMotorData, h]
      · intro _ hgt
        simp [pollMotorData, h, MAX_CONSECUTIVE_ERRORS] at hgt
      · intro _ _; simp [pollMotorData, h, MAX_CONSECUTIVE_ERRORS]
    | false =>
      refine ⟨?_, ?_, ?_, ?_⟩
      · intro hf; simp [fetchSucceeds, h] at hf
      · intro _; simp [pollMotorData, h]
      · intro hrun; simp at hrun
      · intro hrun; simp at hrun
  | error e =>
    cases ir with
    | true =>
      refine ⟨?_, ?_, ?_, ?_⟩
      · intro _; simp [pollMotorData, h]
      · intro hs; simp [fetchSucceeds, h] at hs
      · intro _ hgt
        simp only [pollMotorData, h, MAX_CONSECUTIVE_ERRORS] at hgt ⊢
        simp only [if_true]
        rw [if_pos (by simpa using hgt)]
      · intro _ hle
        simp only [pollMotorData, h, MAX_CONSECUTIVE_ERRORS] at hle ⊢
        simp only [if_true]
        rw [if_neg (by simp at hle ⊢; omega)]
    | false =>
      refine ⟨?_, ?_, ?_, ?_⟩
      · intro _; simp [pollMotorData, h]
      · intro hs; simp [fetchSucceeds, h] at hs
      · intro hrun; simp at hrun
      · intro hrun; simp at hrun

/-- Witness for C4 at concrete states: a fourth consecutive failure doubles
the scheduled delay, and a success resets the count and keeps the nominal
delay. -/
theorem pollCycle_backoff_and_errorCount_witness :
    (pollMotorData ⟨500, true, some 0, 3⟩ downResult 7 9).1.consecutiveErrors
      = 3 + 1 ∧
    (pollMotorData ⟨500, true, some 0, 3⟩ downResult 7 9).2.2
      = some (9, 500 * 2) ∧
    (pollMotorData ⟨500, true, some 0, 0⟩ okResult 7 9).1.consecutiveErrors
      = 0 ∧
    (pollMotorData ⟨500, true, some 0, 0⟩ okResult 7 9).2.2
      = some (9, 500) := by
  obtain ⟨h1, -, h3, -⟩ :=
    pollCycle_backoff_and_errorCount ⟨500, true, some 0, 3⟩ downResult 7 9
  obtain ⟨-, h2, -, h4⟩ :=
    pollCycle_backoff_and_errorCount ⟨500, true, some 0, 0⟩ okResult 7 9
  exact ⟨h1 rfl, h3 rfl (by decide), h2 rfl, h4 rfl (by decide)⟩

/-- **C9**: processing `stop` clears the pending timer (the stored id is
passed to `clearTimeout`) and leaves the loop stopped; once stopped, a
still-in-flight `pollMotorData` never reschedules (the guard fails for
every possible fetch result) but still posts exactly one final message —
`motorData` when the fetch succeeds, `error` when it fails. -/
theorem stop_noReschedule_inflight_message (st : WorkerState)
    (res : FetchResult) (ts id tid : ℕ) :
    (st.pollTimer = some tid →
      handleMessage st .stop
        = .ok ({ st with isRunning := false },
               [WorkerEffect.clearTimer tid])) ∧
    (st.isRunning = false → (pollMotorData st res ts id).2.2 = none) ∧
    (st.isRunning = false → ∀ m p, workerFetchOutcome res = .ok (m, p) →
      (pollMotorData st res ts id).2.1 = [OutMsg.motorData m p ts]) ∧
    (st.isRunning = false → ∀ e, workerFetchOutcome res = .error e →
      (pollMotorData st res ts id).2.1 = [OutMsg.errorMsg e]) := by
  refine ⟨?_, ?_, ?_, ?_⟩
  · intro hpt
    simp [handleMessage, clearPendingEffects, hpt]
  · intro hstop
    cases h : workerFetchOutcome res <;> simp [pollMotorData, h, hstop]
  · intro hstop m p hok
    simp [pollMotorData, hok, hstop]
  · intro hstop e herr
    simp [pollMotorData, herr, hstop]

/-- Witness for C9: a stopped worker with a recorded timer id, observed on
a failing and on a succeeding in-flight fetch. -/
theorem stop_noReschedule_inflight_message_witness :
    handleMessage stoppedWorkerState .stop
      = .ok (stoppedWorkerState, [WorkerEffect.clearTimer 1]) ∧
    (pollMotorData stoppedWorkerState downResult 7 9).2.2 = none ∧
    (pollMotorData stoppedWorkerState downResult 7 9).2.1
      = [OutMsg.errorMsg "down"] ∧
    (pollMotorData stoppedWorkerState okResult 7 9).2.1
      = [OutMsg.motorData [] [] 7] := by
  obtain ⟨h1, h2, -, h4⟩ :=
    stop_noReschedule_inflight_message stoppedWorkerState downResult 7 9 1
  obtain ⟨-, -, h3, -⟩ :=
    stop_noReschedule_inflight_message stoppedWorkerState okResult 7 9 1
  exact ⟨h1 rfl, h2 rfl, h4 rfl "down" rfl, h3 rfl [] [] rfl⟩

/-- **C3** fails on the code: with the worker stopped (`isRunning` false,
timer cleared), a received `poll` command is not a no-op — the handler
unconditionally invokes `pollMotorData()`, issuing a fetch
(`beginPoll`). -/
theorem poll_after_stop_issues_fetch :
    stoppedWorkerState.isRunning = false ∧
    handleMessage stoppedWorkerState .poll
      = .ok (stoppedWorkerState,
             [WorkerEffect.clearTimer 1, WorkerEffect.beginPoll]) ∧
    WorkerEffect.beginPoll ∈ handlerEffects stoppedWorkerState .poll := by
  refine ⟨rfl, rfl, ?_⟩
  simp [handlerEffects, handleMessage, clearPendingEffects,
    stoppedWorkerState]

/-- **C3 (amended)**: after `stop`, a second `stop` does not throw and
schedules no fetch; a `poll` received while stopped is accepted without
error and issues exactly one immediate fetch, whose settling cycle is never
rescheduled; and no command other than `start` can leave the stopped
state. -/
theorem stopped_worker_command_semantics (st : WorkerState)
    (h : st.isRunning = false) :
    handleMessage st .stop = .ok (st, clearPendingEffects st) ∧
    WorkerEffect.beginPoll ∉ clearPendingEffects st ∧
    handleMessage st .poll
      = .ok (st, clearPendingEffects st ++ [WorkerEffect.beginPoll]) ∧
    (∀ res ts id, (pollMotorData st res ts id).2.2 = none) ∧
    (∀ cmd st' effs, handleMessage st cmd = .ok (st', effs) →
      cmd ≠ .start → st'.isRunning = false) := by
  obtain ⟨pi, ir, pt, ce⟩ := st
  simp only at h
  subst h
  refine ⟨rfl, ?_, rfl, ?_, ?_⟩
  · cases pt <;> simp [clearPendingEffects]
  · intro res ts id
    cases hr : workerFetchOutcome res <;> simp [pollMotorData, hr]
  · intro cmd st' effs hok hne
    cases cmd with
    | start => exact absurd rfl hne
    | stop => cases hok; rfl
    | poll => cases hok; rfl
    | setIntervalCmd v =>
      by_cases hv : (v.truthy && v.isNumber) = true
      · simp [handleMessage, hv] at hok
      · simp [handleMessage, hv] at hok
        obtain ⟨h1, -⟩ := hok
        rw [← h1]
    | unknown s => cases hok; rfl

/-- Witness for C3 (amended) at the concrete stopped state. -/
theorem stopped_worker_command_semantics_witness :
    handleMessage stoppedWorkerState .stop
      = .ok (stoppedWorkerState, clearPendingEffects stoppedWorkerState) ∧
    (pollMotorData stoppedWorkerState downResult 7 9).2.2 = none := by
  obtain ⟨h1, -, -, h4, -⟩ :=
    stopped_worker_command_semantics stoppedWorkerState rfl
  exact ⟨h1, h4 downResult 7 9⟩

/-- **C1** fails on the code: when `new Worker(...)` throws, the catch does
call `setupFallbackPolling()` and the 1000 ms fallback interval is
registered (so motor polling continues in the driver's own context), but
the fallback routine then reads the `let cleanup` binding, which is still
in its temporal dead zone, so a `ReferenceError` propagates out of
`setupMotorDataWorker` and the `{cleanup, motorUpdateKey}` handle is never
returned.  On a successful worker construction nothing is thrown. -/
theorem workerInitFailure_startSequence_throws :
    setupMotorDataWorkerRun true =
      { events := [InitEvent.generalFetchStarted,
                   InitEvent.mainIntervalSet 5000,
                   InitEvent.fallbackIntervalSet 1000],
        thrown := some (.referenceError
          "Cannot access 'cleanup' before initialization"),
        handleReturned := false } ∧
    InitEvent.fallbackIntervalSet 1000 ∈ (setupMotorDataWorkerRun true).events ∧
    setupMotorDataWorkerRun false =
      { events := [InitEvent.generalFetchStarted,
                   InitEvent.mainIntervalSet 5000,
                   InitEvent.workerCreated],
        thrown := none, handleReturned := true } := by
  refine ⟨rfl, ?_, rfl⟩
  simp [setupMotorDataWorkerRun, initWorker, setupFallbackPolling,
    readBinding]

/-- **C5** fails on the code: a successful motor update delivered as a
worker message does not leave every other snapshot field unchanged — the
handler spread-merges the carried `pingStatus` into the snapshot's
connectivity map.  Here a motor message carrying `{robo1: true}` changes
`pingStatus` from `{}` to `{robo1: true}`. -/
theorem worker_motor_update_changes_pingStatus :
    isSuccessfulMotorMerge (.workerMsg msgWithPing) = true ∧
    orch0.snapshot.pingStatus = [] ∧
    (handleWorkerMessage orch0 msgWithPing).snapshot.pingStatus
      = [("robo1", true)] ∧
    (handleWorkerMessage orch0 msgWithPing).snapshot.pingStatus
      ≠ orch0.snapshot.pingStatus := by
  refine ⟨rfl, rfl, ?_, ?_⟩ <;>
    simp [handleWorkerMessage, msgWithPing, orch0, objMerge]

/-- **C5 (amended)**: a successful general-status update replaces only
`pingStatus`/`robotStatus`/`cleaningDeviceStatus` (each kept when absent
from the payload) and leaves `motorData` and the motor update key
untouched; a worker motor message replaces `motorData`, spread-merges the
carried `pingStatus` into connectivity, and leaves `robotStatus` and
`cleaningDeviceStatus` unchanged; the direct motor-only fetch and the
fallback tick touch nothing but `motorData` (and the key). -/
theorem merge_frame_bounds (st : OrchState) (d : Payload) (now : ℕ)
    (m : MotorMap) (p : PingMap) (ts : ℕ) (res : FetchResult) :
    (fetchGeneralData st (.ok d) now).snapshot.motorData
      = st.snapshot.motorData ∧
    (fetchGeneralData st (.ok d) now).motorUpdateKey = st.motorUpdateKey ∧
    (fetchGeneralData st (.ok d) now).snapshot.pingStatus
      = d.ping_status.getD st.snapshot.pingStatus ∧
    (fetchGeneralData st (.ok d) now).snapshot.robotStatus
      = d.robot_status.getD st.snapshot.robotStatus ∧
    (fetchGeneralData st (.ok d) now).snapshot.cleaningDeviceStatus
      = d.cleaning_device_status.getD st.snapshot.cleaningDeviceStatus ∧
    (handleWorkerMessage st (.motorData m p ts)).snapshot.motorData = m ∧
    (handleWorkerMessage st (.motorData m p ts)).snapshot.pingStatus
      = objMerge st.snapshot.pingStatus p ∧
    (handleWorkerMessage st (.motorData m p ts)).snapshot.robotStatus
      = st.snapshot.robotStatus ∧
    (handleWorkerMessage st (.motorData m p ts)).snapshot.cleaningDeviceStatus
      = st.snapshot.cleaningDeviceStatus ∧
    (fetchMotorDataOnly st res).snapshot.pingStatus
      = st.snapshot.pingStatus ∧
    (fetchMotorDataOnly st res).snapshot.robotStatus
      = st.snapshot.robotStatus ∧
    (fetchMotorDataOnly st res).snapshot.cleaningDeviceStatus
      = st.snapshot.cleaningDeviceStatus ∧
    (fallbackPollTick st res).snapshot.pingStatus
      = st.snapshot.pingStatus ∧
    (fallbackPollTick st res).snapshot.robotStatus
      = st.snapshot.robotStatus ∧
    (fallbackPollTick st res).snapshot.cleaningDeviceStatus
      = st.snapshot.cleaningDeviceStatus := by
  refine ⟨rfl, rfl, rfl, rfl, rfl, rfl, rfl, rfl, rfl,
    ?_, ?_, ?_, ?_, ?_, ?_⟩ <;>
  · cases res with
    | ok d2 =>
      cases hm : d2.motor_data <;>
        simp [fetchMotorDataOnly, fallbackPollTick, hm]
    | networkError msg => rfl
    | httpError s => rfl
    | decodeError msg => rfl

/-- **C6**: the motor update key grows by exactly 1 on every successfully
merged motor update (motor-only fetch with a `motor_data` payload, worker
`motorData` message, fallback tick with a `motor_data` payload) and is
unchanged on every other event — failed fetches, payloads without motor
data, error messages, and general-status updates — hence it is
non-decreasing over every execution. -/
theorem motorUpdateKey_monotone_exact :
    (∀ st e, (orchStep st e).motorUpdateKey
        = st.motorUpdateKey + (if isSuccessfulMotorMerge e then 1 else 0)) ∧
    (∀ st es, st.motorUpdateKey ≤ (orchRun st es).motorUpdateKey) := by
  have hstep : ∀ st e, (orchStep st e).motorUpdateKey
      = st.motorUpdateKey + (if isSuccessfulMotorMerge e then 1 else 0) := by
    intro st e
    cases e with
    | generalResult res now =>
      cases res <;>
        simp [orchStep, fetchGeneralData, isSuccessfulMotorMerge]
    | motorOnlyResult res =>
      cases res with
      | ok d =>
        cases hm : d.motor_data <;>
          simp [orchStep, fetchMotorDataOnly, isSuccessfulMotorMerge, hm]
      | networkError msg =>
        simp [orchStep, fetchMotorDataOnly, isSuccessfulMotorMerge]
      | httpError s =>
        simp [orchStep, fetchMotorDataOnly, isSuccessfulMotorMerge]
      | decodeError msg =>
        simp [orchStep, fetchMotorDataOnly, isSuccessfulMotorMerge]
    | workerMsg msg =>
      cases msg <;>
        simp [orchStep, handleWorkerMessage, isSuccessfulMotorMerge]
    | fallbackResult res =>
      cases res with
      | ok d =>
        cases hm : d.motor_data <;>
          simp [orchStep, fallbackPollTick, isSuccessfulMotorMerge, hm]
      | networkError msg =>
        simp [orchStep, fallbackPollTick, isSuccessfulMotorMerge]
      | httpError s =>
        simp [orchStep, fallbackPollTick, isSuccessfulMotorMerge]
      | decodeError msg =>
        simp [orchStep, fallbackPollTick, isSuccessfulMotorMerge]
  refine ⟨hstep, ?_⟩
  intro st es
  induction es generalizing st with
  | nil => exact le_refl _
  | cons e rest ih =>
    have h1 : st.motorUpdateKey ≤ (orchStep st e).motorUpdateKey := by
      rw [hstep st e]; exact Nat.le_add_right _ _
    exact le_trans h1 (ih (orchStep st e))

/-- **C7** fails on the code: the claim covers every formatter call path,
but the detail-view copy has no exponential branch — `formatMotorValue`
there renders 1500.4 as `"1500.40"` (fixed-point, two fractional digits),
not `"1.50e+3"`. -/
theorem detail_formatter_has_no_exponential_branch :
    MotorDetailComponent.formatMotorValue (.num 1500.4) = "1500.40" ∧
    MotorDetailComponent.formatMotorValue (.num 1500.4) ≠ "1.50e+3" := by
  have h : MotorDetailComponent.formatMotorValue (.num 1500.4)
      = "1500.40" := by with_unfolding_all rfl
  refine ⟨h, ?_⟩
  rw [h]; decide

/-- **C7 (amended)**: the service-module formatter behaves exactly as
claimed — unavailable/invalid sentinels, exponential form with 2 fractional
digits above magnitude 1000 (`formatMotorValue(1500.4) = "1.50e+3"`),
fixed-point with 3 fractional digits otherwise
(`formatMotorValue(0.12345) = "0.123"`) — while the detail-view copy shares
the sentinels but renders every number fixed-point with 2 fractional
digits. -/
theorem formatter_behaviour (q : ℚ) (s : String) (b : Bool) :
    MotorDataService.formatMotorValue .undef = "N/A" ∧
    MotorDataService.formatMotorValue .null = "N/A" ∧
    MotorDataService.formatMotorValue (.str s) = "Invalid" ∧
    MotorDataService.formatMotorValue (.bool b) = "Invalid" ∧
    (|q| > 1000 →
      MotorDataService.formatMotorValue (.num q) = jsToExponential q 2) ∧
    (¬ |q| > 1000 →
      MotorDataService.formatMotorValue (.num q) = jsToFixed q 3) ∧
    MotorDataService.formatMotorValue (.num 1500.4) = "1.50e+3" ∧
    MotorDataService.formatMotorValue (.num 0.12345) = "0.123" ∧
    MotorDetailComponent.formatMotorValue .undef = "N/A" ∧
    MotorDetailComponent.formatMotorValue .null = "N/A" ∧
    MotorDetailComponent.formatMotorValue (.str s) = "Invalid" ∧
    MotorDetailComponent.formatMotorValue (.bool b) = "Invalid" ∧
    MotorDetailComponent.formatMotorValue (.num q) = jsToFixed q 2 := by
  refine ⟨rfl, rfl, rfl, rfl, ?_, ?_, ?_, ?_, rfl, rfl, rfl, rfl, rfl⟩
  · intro h; simp [MotorDataService.formatMotorValue, h]
  · intro h; simp [MotorDataService.formatMotorValue, h]
  · with_unfolding_all rfl
  · with_unfolding_all rfl

/-- Witness for C7 (amended), instantiating the exponential branch at
1500.4 and the fixed-point branch at 0.12345. -/
theorem formatter_behaviour_witness :
    MotorDataService.formatMotorValue (.num 1500.4)
      = jsToExponential 1500.4 2 ∧
    MotorDataService.formatMotorValue (.num 0.12345)
      = jsToFixed 0.12345 3 := by
  obtain ⟨-, -, -, -, h5, -⟩ := formatter_behaviour 1500.4 "x" true
  obtain ⟨-, -, -, -, -, h6, -⟩ := formatter_behaviour 0.12345 "x" true
  exact ⟨h5 (of_decide_eq_true (by with_unfolding_all rfl)),
         h6 (of_decide_eq_true (by with_unfolding_all rfl))⟩

/-- **C8** fails on the code: the claim covers every call path, but the
detail-view classifier has no `position` case — 200000 exceeds the 100000
position ceiling (as the service copy confirms) yet the detail copy
reports it as not abnormal. -/
theorem detail_position_never_abnormal :
    MotorDetailComponent.isMotorValueAbnormal (some 200000) "position"
      = false ∧
    (200000 : ℚ) > 100000 ∧
    MotorDataService.isMotorValueAbnormal (some 200000) "position"
      = true := by
  exact ⟨rfl, of_decide_eq_true (by with_unfolding_all rfl),
    by with_unfolding_all rfl⟩

/-- **C8 (amended)**: the current and velocity ceilings (current > 5,
|velocity| > 1000) hold on all three call paths, the position ceiling
(|position| > 100000) holds on the service and summary-component paths,
the detail-view classifier returns false for every position value, and all
three return false for an absent value whatever the kind. -/
theorem abnormality_ceilings (q : ℚ) (type : String) :
    (MotorDataService.isMotorValueAbnormal (some q) "current" = true
      ↔ q > 5) ∧
    (MotorDataService.isMotorValueAbnormal (some q) "velocity" = true
      ↔ |q| > 1000) ∧
    (MotorDataService.isMotorValueAbnormal (some q) "position" = true
      ↔ |q| > 100000) ∧
    (MotorDataComponent.isMotorValueAbnormal (some q) "current" = true
      ↔ q > 5) ∧
    (MotorDataComponent.isMotorValueAbnormal (some q) "velocity" = true
      ↔ |q| > 1000) ∧
    (MotorDataComponent.isMotorValueAbnormal (some q) "position" = true
      ↔ |q| > 100000) ∧
    (MotorDetailComponent.isMotorValueAbnormal (some q) "current" = true
      ↔ q > 5) ∧
    (MotorDetailComponent.isMotorValueAbnormal (some q) "velocity" = true
      ↔ |q| > 1000) ∧
    MotorDetailComponent.isMotorValueAbnormal (some q) "position" = false ∧
    MotorDataService.isMotorValueAbnormal none type = false ∧
    MotorDataComponent.isMotorValueAbnormal none type = false ∧
    MotorDetailComponent.isMotorValueAbnormal none type = false := by
  refine ⟨?_, ?_, ?_, ?_, ?_, ?_, ?_, ?_, rfl, rfl, rfl, rfl⟩ <;>
    simp [MotorDataService.isMotorValueAbnormal,
      MotorDataComponent.isMotorValueAbnormal,
      MotorDetailComponent.isMotorValueAbnormal]
